import Mathlib

/-
Verification of the multi-stage generation pipeline of this repository
(src/script_bot.py and src/script_post.py), as a shallow embedding.

Python strings are modelled as `List Char`.  The Python string operations the
pipeline uses are reimplemented here with the same semantics:
`s.split(sep)` (non-overlapping, leftmost-first, for a nonempty separator),
`sub in s` (substring containment), `s.strip()` (trim whitespace at both
ends), and list indexing `l[i]` (partial, modelled with `Option`).
-/

set_option maxRecDepth 4000

/-- The character list of a string literal (a Python `str` value). -/
def S (s : String) : List Char := s.data

/-- The code points Python `str.isspace()` accepts (the CPython whitespace
table), which is exactly what `str.strip()` removes. -/
def pyWhitespace : List Nat :=
  [0x09, 0x0a, 0x0b, 0x0c, 0x0d, 0x1c, 0x1d, 0x1e, 0x1f, 0x20,
   0x85, 0xa0, 0x1680,
   0x2000, 0x2001, 0x2002, 0x2003, 0x2004, 0x2005, 0x2006, 0x2007,
   0x2008, 0x2009, 0x200a, 0x2028, 0x2029, 0x202f, 0x205f, 0x3000]

/-- Whitespace recognised by Python `str.strip()`: every `str.isspace()`
character. -/
def isWS (c : Char) : Bool := pyWhitespace.contains c.toNat

/-- Drop leading whitespace. -/
def dropWS (xs : List Char) : List Char := xs.dropWhile isWS

/-- Python `str.strip()`: drop leading and trailing whitespace. -/
def pstrip (xs : List Char) : List Char := (dropWS (dropWS xs).reverse).reverse

/-- Boolean prefix test on character lists. -/
def isPrefixL : List Char → List Char → Bool
  | [], _ => true
  | _ :: _, [] => false
  | s :: ss, x :: xs => s == x && isPrefixL ss xs

/-- Find the leftmost occurrence of `sep`: returns the part strictly before
the occurrence and the part strictly after it, or `none` when `sep` does not
occur.  This is the elementary step from which Python's `split` and `in` are
built. -/
def findSplit (sep : List Char) : List Char → Option (List Char × List Char)
  | [] => if isPrefixL sep [] then some ([], []) else none
  | x :: xs =>
    if isPrefixL sep (x :: xs) then some ([], (x :: xs).drop sep.length)
    else
      match findSplit sep xs with
      | some (a, b) => some (x :: a, b)
      | none => none

/-- Python `sep in xs` (substring containment). -/
def containsL (xs sep : List Char) : Bool := (findSplit sep xs).isSome

/-- Fuel-driven worker for Python `str.split(sep)` with a nonempty
separator: repeated leftmost splitting. -/
def pySplitFuel (sep : List Char) : Nat → List Char → List (List Char)
  | 0, xs => [xs]
  | fuel + 1, xs =>
    match findSplit sep xs with
    | none => [xs]
    | some (a, b) => a :: pySplitFuel sep fuel b

/-- Python `xs.split(sep)` for a nonempty separator.  `xs.length + 1` units
of fuel always suffice because each found separator consumes at least one
character. -/
def pySplit (xs sep : List Char) : List (List Char) :=
  pySplitFuel sep (xs.length + 1) xs

/-- The generic fence delimiter of the Artifact Unwrapper
(the three-backtick string used in script_bot.py lines 314-317). -/
def fence3 : List Char := S "```"

/-- The language-tagged fence delimiter of the Artifact Unwrapper
(the python-annotated opening used in script_bot.py line 314). -/
def fencePy : List Char := S "```python"

/-- The fence-stripping step of the generation stage, script_bot.py lines
314-317, with Python's partial list indexing made explicit: `split(d)[1]`
is `(pySplit code d).get? 1` and `split(d)[0]` is `(pySplit code d).get? 0`;
a `none` models an IndexError. -/
def stripFence? (code : List Char) : Option (List Char) :=
  if containsL code fencePy then
    match (pySplit code fencePy).get? 1 with
    | none => none
    | some seg => (pySplit seg fence3).get? 0
  else if containsL code fence3 then
    match (pySplit code fence3).get? 1 with
    | none => none
    | some seg => (pySplit seg fence3).get? 0
  else some code

/-- The complete Artifact Unwrapper of the generation stage: fence
stripping (script_bot.py lines 314-317) followed by the unconditional
`strip()` of line 319. -/
def unwrapB (text : List Char) : List Char := pstrip ((stripFence? text).getD [])

/-- Wrapping an artifact text in a language-tagged markdown code fence:
opening delimiter line, the text, closing delimiter line. -/
def wrapTagged (T : List Char) : List Char := fencePy ++ '\n' :: (T ++ '\n' :: fence3)

/-- Modelled from the spec (section 4.3): the content strictly between the
first occurrence of the opening delimiter and the next occurrence of the
closing delimiter, `none` when the pair is not present.  This is the
spec-side reading of the fenced-block extraction, kept separate from the
source-side `stripFence?` so the two can be compared. -/
def specBetween (openD closeD text : List Char) : Option (List Char) :=
  match findSplit openD text with
  | none => none
  | some (_, rest) =>
    match findSplit closeD rest with
    | none => none
    | some (m, _) => some m

example : pySplit (S "a```b```c") fence3 = [S "a", S "b", S "c"] := by decide
example : pySplit (S "abc") fence3 = [S "abc"] := by decide
example : containsL (S "x```y") fence3 = true := by decide
example : containsL (S "xy") fence3 = false := by decide
example : pstrip (S "  hi \n") = S "hi" := by decide
example : stripFence? (S "```python\ncode\n```") = some (S "\ncode\n") := by decide
example : unwrapB (S "```python\ncode\n```") = S "code" := by decide
example : unwrapB (S "```\ncode\n``` trailing") = S "code" := by decide
example : unwrapB (S "  plain  ") = S "plain" := by decide
example : unwrapB (S "a```rest") = S "rest" := by decide
example : isWS (Char.ofNat 0xa0) = true := by decide
example : pstrip (S "x\u00A0") = S "x" := by decide
example : pstrip (S "\u3000 y \u2028") = S "y" := by decide

/-! ### Basic facts about the prefix test -/

theorem isPrefixL_iff (sep : List Char) : ∀ xs, isPrefixL sep xs = true ↔ ∃ t, xs = sep ++ t := by
  induction sep with
  | nil => intro xs; simp [isPrefixL]
  | cons s ss ih =>
    intro xs
    cases xs with
    | nil => simp [isPrefixL]
    | cons x xs =>
      simp only [isPrefixL, Bool.and_eq_true, beq_iff_eq, List.cons_append, List.cons.injEq, ih]
      constructor
      · rintro ⟨hs, t, ht⟩; exact ⟨t, hs.symm, ht⟩
      · rintro ⟨t, hx, ht⟩; exact ⟨hx.symm, t, ht⟩

theorem isPrefixL_length_le {sep xs : List Char} (h : isPrefixL sep xs = true) :
    sep.length ≤ xs.length := by
  obtain ⟨t, rfl⟩ := (isPrefixL_iff sep xs).1 h
  simp

theorem isPrefixL_append_right {sep xs : List Char} (w : List Char)
    (h : isPrefixL sep xs = true) : isPrefixL sep (xs ++ w) = true := by
  obtain ⟨t, rfl⟩ := (isPrefixL_iff _ _).1 h
  exact (isPrefixL_iff _ _).2 ⟨t ++ w, by simp⟩

theorem isPrefixL_restrict {sep zs w : List Char} (h : isPrefixL sep (zs ++ w) = true)
    (hl : sep.length ≤ zs.length) : isPrefixL sep zs = true := by
  obtain ⟨t, ht⟩ := (isPrefixL_iff _ _).1 h
  have h1 : (zs ++ w).take sep.length = sep := by
    rw [ht, List.take_left]
  have h2 : (zs ++ w).take sep.length = zs.take sep.length := by
    rw [List.take_append_eq_append_take]
    have hz : sep.length - zs.length = 0 := by omega
    simp [hz]
  refine (isPrefixL_iff _ _).2 ⟨zs.drop sep.length, ?_⟩
  conv_lhs => rw [← List.take_append_drop sep.length zs]
  rw [← h2, h1]

theorem isPrefixL_shrink {p q xs : List Char} (h : isPrefixL (p ++ q) xs = true) :
    isPrefixL p xs = true := by
  obtain ⟨t, rfl⟩ := (isPrefixL_iff _ _).1 h
  exact (isPrefixL_iff _ _).2 ⟨q ++ t, by simp⟩

theorem isPrefixL_false_head {sep : List Char} {x : Char} (hsep : sep ≠ []) (hx : x ∉ sep)
    (xs : List Char) : isPrefixL sep (x :: xs) = false := by
  cases sep with
  | nil => exact absurd rfl hsep
  | cons c ss =>
    cases hb : isPrefixL (c :: ss) (x :: xs) with
    | false => rfl
    | true =>
      exfalso
      simp only [isPrefixL, Bool.and_eq_true, beq_iff_eq] at hb
      exact hx (hb.1 ▸ List.mem_cons_self c ss)

theorem isPrefixL_spill_false {sep zs rest : List Char} {ch : Char} (hch : ch ∉ sep)
    (hzs : isPrefixL sep zs = false) : isPrefixL sep (zs ++ ch :: rest) = false := by
  cases hb : isPrefixL sep (zs ++ ch :: rest) with
  | false => rfl
  | true =>
    exfalso
    by_cases hl : sep.length ≤ zs.length
    · rw [isPrefixL_restrict hb hl] at hzs
      exact Bool.noConfusion hzs
    · obtain ⟨t, ht⟩ := (isPrefixL_iff _ _).1 hb
      have h1 : (zs ++ ch :: rest).take sep.length = sep := by
        rw [ht, List.take_left]
      have h2 : (zs ++ ch :: rest).take sep.length
          = zs ++ (ch :: rest).take (sep.length - zs.length) := by
        rw [List.take_append_eq_append_take, List.take_of_length_le (by omega)]
      obtain ⟨k, hk⟩ : ∃ k, sep.length - zs.length = k + 1 :=
        ⟨sep.length - zs.length - 1, by omega⟩
      rw [hk] at h2
      apply hch
      rw [← h1, h2]
      simp

/-! ### Facts about leftmost-occurrence search -/

theorem findSplit_decomp {sep : List Char} : ∀ {xs a b : List Char},
    findSplit sep xs = some (a, b) → xs = a ++ sep ++ b := by
  intro xs
  induction xs with
  | nil =>
    intro a b h
    simp only [findSplit] at h
    split at h
    · rename_i hp
      simp only [Option.some.injEq, Prod.mk.injEq] at h
      obtain ⟨ha, hb⟩ := h
      subst ha; subst hb
      obtain ⟨t, ht⟩ := (isPrefixL_iff _ _).1 hp
      have := List.append_eq_nil.mp ht.symm
      simp [this.1]
    · exact absurd h (by simp)
  | cons x xs ih =>
    intro a b h
    simp only [findSplit] at h
    split at h
    · rename_i hp
      simp only [Option.some.injEq, Prod.mk.injEq] at h
      obtain ⟨ha, hb⟩ := h
      subst ha; subst hb
      obtain ⟨t, ht⟩ := (isPrefixL_iff _ _).1 hp
      rw [ht, List.drop_left]
      simp
    · split at h
      · rename_i a' b' hf
        simp only [Option.some.injEq, Prod.mk.injEq] at h
        obtain ⟨ha, hb⟩ := h
        subst ha; subst hb
        have hrec := ih hf
        simp [hrec]
      · exact absurd h (by simp)

theorem findSplit_len {sep xs a b : List Char} (hsep : sep ≠ [])
    (h : findSplit sep xs = some (a, b)) : b.length < xs.length := by
  have hd := findSplit_decomp h
  rw [hd]
  cases sep with
  | nil => exact absurd rfl hsep
  | cons c ss => simp [List.length_append]; omega

theorem findSplit_nil {sep : List Char} (hsep : sep ≠ []) : findSplit sep [] = none := by
  cases sep with
  | nil => exact absurd rfl hsep
  | cons c ss => simp [findSplit, isPrefixL]

theorem findSplit_prefix_self {sep : List Char} (hsep : sep ≠ []) (rest : List Char) :
    findSplit sep (sep ++ rest) = some ([], rest) := by
  cases sep with
  | nil => exact absurd rfl hsep
  | cons c ss =>
    have hp : isPrefixL (c :: ss) (c :: (ss ++ rest)) = true :=
      (isPrefixL_iff _ _).2 ⟨rest, rfl⟩
    show findSplit (c :: ss) (c :: (ss ++ rest)) = some ([], rest)
    simp only [findSplit, hp, if_true]
    have heq : c :: (ss ++ rest) = (c :: ss) ++ rest := rfl
    rw [heq, List.drop_left]

theorem findSplit_none_suffix {sep : List Char} (hsep : sep ≠ []) : ∀ {xs : List Char},
    findSplit sep xs = none → ∀ zs, zs <:+ xs → isPrefixL sep zs = false := by
  intro xs
  induction xs with
  | nil =>
    intro _ zs hz
    rw [List.suffix_nil.mp hz]
    cases sep with
    | nil => exact absurd rfl hsep
    | cons c ss => rfl
  | cons x xs ih =>
    intro h zs hz
    simp only [findSplit] at h
    split at h
    · exact absurd h (by simp)
    · rename_i hp
      have hrec : findSplit sep xs = none := by
        cases hf : findSplit sep xs with
        | none => rfl
        | some p =>
          rw [hf] at h
          obtain ⟨a', b'⟩ := p
          simp at h
      rcases List.suffix_cons_iff.mp hz with h1 | h1
      · subst h1
        cases hb : isPrefixL sep (x :: xs) with
        | false => rfl
        | true => exact absurd hb hp
      · exact ih hrec zs h1

theorem findSplit_none_of_suffix {sep : List Char} (hsep : sep ≠ []) : ∀ {xs : List Char},
    (∀ zs, zs <:+ xs → isPrefixL sep zs = false) → findSplit sep xs = none := by
  intro xs
  induction xs with
  | nil => intro _; exact findSplit_nil hsep
  | cons x xs ih =>
    intro h
    have hp : isPrefixL sep (x :: xs) = false := h _ (List.suffix_refl _)
    have hrec : findSplit sep xs = none :=
      ih (fun zs hz => h zs (hz.trans (List.suffix_cons x xs)))
    simp [findSplit, hp, hrec]

theorem findSplit_append {sep ys : List Char} : ∀ {xs : List Char},
    (∀ zs, zs <:+ xs → zs ≠ [] → isPrefixL sep (zs ++ ys) = false) →
    findSplit sep (xs ++ ys) = (findSplit sep ys).map (fun p => (xs ++ p.1, p.2)) := by
  intro xs
  induction xs with
  | nil =>
    intro _
    cases hf : findSplit sep ys with
    | none => simp [hf]
    | some p => obtain ⟨a, b⟩ := p; simp [hf]
  | cons x xs ih =>
    intro h
    have hp : isPrefixL sep (x :: (xs ++ ys)) = false := by
      have hh := h (x :: xs) (List.suffix_refl _) (by simp)
      simpa using hh
    have hrec := ih (fun zs hz hne => h zs (hz.trans (List.suffix_cons x xs)) hne)
    show findSplit sep (x :: (xs ++ ys)) = _
    simp only [findSplit, hp, Bool.false_eq_true, if_false]
    rw [hrec]
    cases hf : findSplit sep ys with
    | none => simp
    | some p => obtain ⟨a, b⟩ := p; simp

theorem findSplit_before {sep : List Char} (hsep : sep ≠ []) : ∀ {xs m r : List Char},
    findSplit sep xs = some (m, r) → findSplit sep m = none := by
  intro xs
  induction xs with
  | nil =>
    intro m r h
    rw [findSplit_nil hsep] at h
    exact absurd h (by simp)
  | cons x xs ih =>
    intro m r h
    simp only [findSplit] at h
    split at h
    · simp only [Option.some.injEq, Prod.mk.injEq] at h
      obtain ⟨hm, _⟩ := h
      rw [← hm]
      exact findSplit_nil hsep
    · rename_i hp
      split at h
      · rename_i a' b' hf
        simp only [Option.some.injEq, Prod.mk.injEq] at h
        obtain ⟨hm, _⟩ := h
        rw [← hm]
        have hihm := ih hf
        have hd := findSplit_decomp hf
        have hpa : isPrefixL sep (x :: a') = false := by
          cases hb : isPrefixL sep (x :: a') with
          | false => rfl
          | true =>
            exfalso
            have hext : isPrefixL sep ((x :: a') ++ (sep ++ b')) = true :=
              isPrefixL_append_right _ hb
            have heq : (x :: a') ++ (sep ++ b') = x :: xs := by
              rw [hd]; simp
            rw [heq] at hext
            exact hp hext
        simp [findSplit, hpa, hihm]
      · exact absurd h (by simp)

/-! ### Python split and containment, derived facts -/

theorem pySplitFuel_congr {sep : List Char} (hsep : sep ≠ []) : ∀ f1 f2 xs,
    xs.length < f1 → xs.length < f2 → pySplitFuel sep f1 xs = pySplitFuel sep f2 xs := by
  intro f1
  induction f1 with
  | zero => intro f2 xs h1 _; exact absurd h1 (Nat.not_lt_zero _)
  | succ f1 ih =>
    intro f2 xs h1 h2
    cases f2 with
    | zero => exact absurd h2 (Nat.not_lt_zero _)
    | succ f2 =>
      simp only [pySplitFuel]
      cases hf : findSplit sep xs with
      | none => rfl
      | some p =>
        obtain ⟨a, b⟩ := p
        have hb := findSplit_len hsep hf
        show a :: pySplitFuel sep f1 b = a :: pySplitFuel sep f2 b
        rw [ih f2 b (by omega) (by omega)]

theorem pySplit_eq {sep : List Char} (hsep : sep ≠ []) (xs : List Char) :
    pySplit xs sep = match findSplit sep xs with
      | none => [xs]
      | some p => p.1 :: pySplit p.2 sep := by
  show pySplitFuel sep (xs.length + 1) xs = _
  cases hf : findSplit sep xs with
  | none => simp [pySplitFuel, hf]
  | some p =>
    obtain ⟨a, b⟩ := p
    have hb := findSplit_len hsep hf
    simp only [pySplitFuel, hf]
    exact congrArg (a :: ·) (pySplitFuel_congr hsep _ _ b (by omega) (by omega))

theorem pySplit_get0 {sep : List Char} (hsep : sep ≠ []) (xs : List Char) :
    (pySplit xs sep).get? 0
      = some (match findSplit sep xs with | none => xs | some p => p.1) := by
  rw [pySplit_eq hsep]
  cases hf : findSplit sep xs with
  | none => rfl
  | some p => rfl

theorem pySplit_get1 {sep : List Char} (hsep : sep ≠ []) {xs a b : List Char}
    (h : findSplit sep xs = some (a, b)) :
    (pySplit xs sep).get? 1
      = some (match findSplit sep b with | none => b | some p => p.1) := by
  rw [pySplit_eq hsep, h]
  show (pySplit b sep).get? 0 = _
  exact pySplit_get0 hsep b

theorem containsL_false_iff {xs sep : List Char} :
    containsL xs sep = false ↔ findSplit sep xs = none := by
  unfold containsL
  cases findSplit sep xs <;> simp

theorem containsL_some {xs sep : List Char} (h : containsL xs sep = true) :
    ∃ p, findSplit sep xs = some p := by
  unfold containsL at h
  cases hf : findSplit sep xs with
  | none => rw [hf] at h; exact absurd h (by simp)
  | some p => exact ⟨p, rfl⟩

theorem fence3_ne_nil : fence3 ≠ [] := by decide

theorem fencePy_ne_nil : fencePy ≠ [] := by decide

theorem fencePy_decomp : fencePy = fence3 ++ S "python" := by decide

theorem isPrefixL_fence3_of_fencePy {xs : List Char} (h : isPrefixL fencePy xs = true) :
    isPrefixL fence3 xs = true := by
  rw [fencePy_decomp] at h
  exact isPrefixL_shrink h

/-- Totality of the fence-stripping step: the guarded split-and-index
expressions of script_bot.py lines 314-317 always produce a value, on every
input string. -/
theorem stripFence_total (text : List Char) : (stripFence? text).isSome = true := by
  unfold stripFence?
  by_cases h1 : containsL text fencePy = true
  · rw [if_pos h1]
    obtain ⟨⟨a, b⟩, hf⟩ := containsL_some h1
    rw [pySplit_get1 fencePy_ne_nil hf]
    show ((pySplit _ fence3).get? 0).isSome = true
    rw [pySplit_get0 fence3_ne_nil]
    rfl
  · rw [if_neg h1]
    by_cases h2 : containsL text fence3 = true
    · rw [if_pos h2]
      obtain ⟨⟨a, b⟩, hf⟩ := containsL_some h2
      rw [pySplit_get1 fence3_ne_nil hf]
      show ((pySplit _ fence3).get? 0).isSome = true
      rw [pySplit_get0 fence3_ne_nil]
      rfl
    · rw [if_neg h2]
      rfl

/-! ### Facts about Python strip -/

theorem dropWS_cons_of_ws {c : Char} (hc : isWS c = true) (xs : List Char) :
    dropWS (c :: xs) = dropWS xs := by
  simp [dropWS, List.dropWhile, hc]

theorem dropWS_append_ws {c : Char} (hc : isWS c = true) : ∀ xs : List Char,
    dropWS (xs ++ [c]) = if dropWS xs = [] then [] else dropWS xs ++ [c] := by
  intro xs
  induction xs with
  | nil => simp [dropWS, List.dropWhile, hc]
  | cons x xs ih =>
    by_cases hx : isWS x = true
    · simp only [List.cons_append]
      rw [dropWS_cons_of_ws hx, dropWS_cons_of_ws hx, ih]
    · have hx' : isWS x = false := by
        cases hb : isWS x with
        | false => rfl
        | true => exact absurd hb hx
      simp [dropWS, List.dropWhile, hx']

theorem pstrip_cons_ws {c : Char} (hc : isWS c = true) (xs : List Char) :
    pstrip (c :: xs) = pstrip xs := by
  unfold pstrip
  rw [dropWS_cons_of_ws hc]

theorem pstrip_append_ws {c : Char} (hc : isWS c = true) (xs : List Char) :
    pstrip (xs ++ [c]) = pstrip xs := by
  unfold pstrip
  rw [dropWS_append_ws hc]
  by_cases h : dropWS xs = []
  · simp [h]
  · rw [if_neg h]
    have hrev : (dropWS xs ++ [c]).reverse = c :: (dropWS xs).reverse := by simp
    rw [hrev, dropWS_cons_of_ws hc]

/-! ### The unwrap round trip for fenced artifacts -/

theorem findSplit_fence3_cons_nl {T : List Char} (hT : findSplit fence3 T = none) :
    findSplit fence3 ('\n' :: T) = none := by
  apply findSplit_none_of_suffix fence3_ne_nil
  intro zs hz
  rcases List.suffix_cons_iff.mp hz with h1 | h1
  · subst h1
    exact isPrefixL_false_head fence3_ne_nil (by decide) T
  · exact findSplit_none_suffix fence3_ne_nil hT zs h1

theorem spill_hyp_fence3 {T : List Char} (hT : findSplit fence3 ('\n' :: T) = none) :
    ∀ zs, zs <:+ ('\n' :: T) → zs ≠ [] → isPrefixL fence3 (zs ++ '\n' :: fence3) = false := by
  intro zs hz _
  exact isPrefixL_spill_false (by decide)
    (findSplit_none_suffix fence3_ne_nil hT zs hz)

theorem spill_hyp_fencePy {T : List Char} (hT : findSplit fence3 ('\n' :: T) = none) :
    ∀ zs, zs <:+ ('\n' :: T) → zs ≠ [] → isPrefixL fencePy (zs ++ '\n' :: fence3) = false := by
  intro zs hz hne
  have h3 := spill_hyp_fence3 hT zs hz hne
  cases hb : isPrefixL fencePy (zs ++ '\n' :: fence3) with
  | false => rfl
  | true =>
    exfalso
    rw [isPrefixL_fence3_of_fencePy hb] at h3
    exact Bool.noConfusion h3

theorem stripFence_wrapTagged {T : List Char} (hT : containsL T fence3 = false) :
    stripFence? (wrapTagged T) = some ('\n' :: (T ++ ['\n'])) := by
  have hT' : findSplit fence3 T = none := containsL_false_iff.mp hT
  have hnl : findSplit fence3 ('\n' :: T) = none := findSplit_fence3_cons_nl hT'
  have hsplit1 : findSplit fencePy (wrapTagged T)
      = some ([], '\n' :: (T ++ '\n' :: fence3)) := by
    unfold wrapTagged
    exact findSplit_prefix_self fencePy_ne_nil _
  have hassoc : '\n' :: (T ++ '\n' :: fence3) = ('\n' :: T) ++ ('\n' :: fence3) := by simp
  have hrest : findSplit fencePy ('\n' :: (T ++ '\n' :: fence3)) = none := by
    rw [hassoc, findSplit_append (spill_hyp_fencePy hnl)]
    rw [show findSplit fencePy ('\n' :: fence3) = none from by decide]
    rfl
  have hsplit3 : findSplit fence3 ('\n' :: (T ++ '\n' :: fence3))
      = some (('\n' :: T) ++ ['\n'], []) := by
    rw [hassoc, findSplit_append (spill_hyp_fence3 hnl)]
    rw [show findSplit fence3 ('\n' :: fence3) = some (['\n'], []) from by decide]
    rfl
  have hguard : containsL (wrapTagged T) fencePy = true := by
    unfold containsL
    rw [hsplit1]
    rfl
  unfold stripFence?
  rw [if_pos hguard]
  rw [pySplit_get1 fencePy_ne_nil hsplit1, hrest]
  show (pySplit ('\n' :: (T ++ '\n' :: fence3)) fence3).get? 0 = _
  rw [pySplit_get0 fence3_ne_nil, hsplit3]
  show some (('\n' :: T) ++ ['\n']) = _
  simp

theorem unwrapB_wrapTagged {T : List Char} (hT : containsL T fence3 = false) :
    unwrapB (wrapTagged T) = pstrip T := by
  unfold unwrapB
  rw [stripFence_wrapTagged hT]
  show pstrip ('\n' :: (T ++ ['\n'])) = pstrip T
  rw [pstrip_cons_ws (by decide), pstrip_append_ws (by decide)]

/-!
### Data model of the pipelines

The decoded structured record of a stage is a Python dict with string keys;
its values in this program are strings or lists (the `.get` defaults at
script_bot.py lines 300-308 use `[]`).  `SimpleJsonOutputParser` and the
chat model are external collaborators (LangChain / the Model Gateway of the
spec), so they enter the embedding as function parameters: the gateway maps
a rendered prompt to raw text or an error, and the structured decoder maps
raw text to a record or an error.  A rendered prompt is represented by its
template identity together with the exact substituted arguments, since each
template is a fixed string constant.
-/

inductive Val where
  | str (s : List Char)
  | vlist (vs : List (List Char))
deriving DecidableEq

abbrev Dict := List (List Char × Val)

/-- Python `d.get(k, default)`. -/
def pyGet (d : Dict) (k : List Char) (v : Val) : Val :=
  match d.find? (fun p => p.1 == k) with
  | some p => p.2
  | none => v

/-- A Python exception escaping a chain invocation: a Model Gateway
failure (transport/auth/quota), a structured-decode failure raised by the
output parser, a filesystem error from the save step, or an IndexError. -/
inductive PyErr where
  | gateway (msg : List Char)
  | parse (msg : List Char)
  | save (msg : List Char)
  | indexError
deriving DecidableEq

deriving instance DecidableEq for Except

/-- The rendered prompts of script_bot.py: one constructor per fixed
template, carrying the substituted argument mapping passed to
`chain.invoke`. -/
inductive PromptB where
  | analysis (args : Dict)
  | tools (args : Dict)
  | structureStage (args : Dict)
  | code (args : Dict)
  | review (args : Dict)
deriving DecidableEq

/-- The rendered prompts of script_post.py. -/
inductive PromptP where
  | analysis (args : Dict)
  | style (args : Dict)
  | structureStage (args : Dict)
  | content (args : Dict)
  | review (args : Dict)
deriving DecidableEq

/-- Observable events of one pipeline run, in order: completion of a
structured stage with its resulting fields, production of the artifact,
completion of the advisory review, and a successful file write. -/
inductive Ev where
  | stage (name : List Char) (fields : Dict)
  | gen (artifact : List Char)
  | review (fields : Dict)
  | write (file : List Char) (content : List Char)
deriving DecidableEq

def isWrite : Ev → Bool
  | .write _ _ => true
  | _ => false

/-- A file system: file name to contents. -/
def FS := List Char → Option (List Char)

/-- Effect of one event on the file system: a write replaces the full
contents of the named file (Python `open(f, 'w')` truncates), every other
event leaves the file system unchanged. -/
def applyEv (fs : FS) : Ev → FS
  | .write f c => fun g => if g = f then some c else fs g
  | _ => fs

def applyEvents (fs : FS) (es : List Ev) : FS := es.foldl applyEv fs

namespace ScriptBot

/-- Gateway type for the bot pipeline: rendered prompt to model text. -/
abbrev Gw := PromptB → Except PyErr (List Char)

/-- Structured decoder type (SimpleJsonOutputParser). -/
abbrev Parse := List Char → Except PyErr Dict

/-- Default mapping of analysis_chain, script_bot.py lines 94-100. -/
def analysisDefaults : Dict :=
  [(S "bot_purpose", .str (S "Базовый функционал")),
   (S "key_features", .str (S "Обработка команд")),
   (S "user_interactions", .str (S "Команды")),
   (S "complexity_level", .str (S "simple")),
   (S "special_requirements", .str (S "Нет"))]

/-- Arguments substituted into the analysis template, script_bot.py line 89. -/
def analysisArgs (description : List Char) : Dict :=
  [(S "description", .str description)]

/-- Chain 1 of script_bot.py (lines 55-100): invoke the gateway and the
structured decoder; any exception is caught and the default mapping is
returned. -/
def analysis_chain (gw : Gw) (parse : Parse) (description : List Char) : Dict :=
  match (gw (.analysis (analysisArgs description))).bind parse with
  | .ok r => r
  | .error _ => analysisDefaults

/-- Default mapping of tools_selection_chain, script_bot.py lines 156-163. -/
def toolsDefaults : Dict :=
  [(S "framework_version", .str (S "aiogram 3.x")),
   (S "database", .str (S "none")),
   (S "additional_libraries", .str []),
   (S "api_integrations", .str []),
   (S "middleware_needs", .str (S "logging")),
   (S "state_management", .str (S "none"))]

/-- Arguments substituted into the tools template, script_bot.py lines 144-151. -/
def toolsArgs (analysis : Dict) (description : List Char) : Dict :=
  [(S "description", .str description),
   (S "bot_purpose", pyGet analysis (S "bot_purpose") (.str [])),
   (S "key_features", pyGet analysis (S "key_features") (.str [])),
   (S "user_interactions", pyGet analysis (S "user_interactions") (.str [])),
   (S "complexity_level", pyGet analysis (S "complexity_level") (.str (S "simple"))),
   (S "special_requirements", pyGet analysis (S "special_requirements") (.str []))]

/-- Chain 2 of script_bot.py (lines 103-163). -/
def tools_selection_chain (gw : Gw) (parse : Parse) (analysis : Dict)
    (description : List Char) : Dict :=
  match (gw (.tools (toolsArgs analysis description))).bind parse with
  | .ok r => r
  | .error _ => toolsDefaults

/-- Default mapping of structure_chain, script_bot.py lines 229-237. -/
def structureDefaults : Dict :=
  [(S "commands", .str (S "/start, /help")),
   (S "handlers", .str (S "command_handler, message_handler")),
   (S "states", .str []),
   (S "keyboards", .str []),
   (S "modules", .str (S "main")),
   (S "data_models", .str []),
   (S "helper_functions", .str [])]

/-- Arguments substituted into the structure template, script_bot.py
lines 213-222. -/
def structureArgs (analysis tools : Dict) (description : List Char) : Dict :=
  [(S "description", .str description),
   (S "bot_purpose", pyGet analysis (S "bot_purpose") (.str [])),
   (S "key_features", pyGet analysis (S "key_features") (.str [])),
   (S "complexity_level", pyGet analysis (S "complexity_level") (.str (S "simple"))),
   (S "framework_version", pyGet tools (S "framework_version") (.str (S "aiogram 3.x"))),
   (S "database", pyGet tools (S "database") (.str (S "none"))),
   (S "additional_libraries", pyGet tools (S "additional_libraries") (.str [])),
   (S "state_management", pyGet tools (S "state_management") (.str (S "none")))]

/-- Chain 3 of script_bot.py (lines 166-237). -/
def structure_chain (gw : Gw) (parse : Parse) (analysis tools : Dict)
    (description : List Char) : Dict :=
  match (gw (.structureStage (structureArgs analysis tools description))).bind parse with
  | .ok r => r
  | .error _ => structureDefaults

/-- Arguments substituted into the code template, script_bot.py lines
293-309; the `.get` defaults for the structure fields are Python `[]`. -/
def codeArgs (analysis tools structureFields : Dict) (description : List Char) : Dict :=
  [(S "description", .str description),
   (S "bot_purpose", pyGet analysis (S "bot_purpose") (.str [])),
   (S "key_features", pyGet analysis (S "key_features") (.str [])),
   (S "complexity_level", pyGet analysis (S "complexity_level") (.str (S "simple"))),
   (S "framework_version", pyGet tools (S "framework_version") (.str (S "aiogram 3.x"))),
   (S "database", pyGet tools (S "database") (.str (S "none"))),
   (S "additional_libraries", pyGet tools (S "additional_libraries") (.vlist [])),
   (S "state_management", pyGet tools (S "state_management") (.str (S "none"))),
   (S "commands", pyGet structureFields (S "commands") (.vlist [])),
   (S "handlers", pyGet structureFields (S "handlers") (.vlist [])),
   (S "states", pyGet structureFields (S "states") (.vlist [])),
   (S "keyboards", pyGet structureFields (S "keyboards") (.vlist [])),
   (S "modules", pyGet structureFields (S "modules") (.vlist [])),
   (S "data_models", pyGet structureFields (S "data_models") (.vlist [])),
   (S "helper_functions", pyGet structureFields (S "helper_functions") (.vlist []))]

/-- Chain 4 of script_bot.py (lines 240-321): no structured decoder and no
exception handler; the raw model text goes through the fence-stripping and
the final strip.  A gateway failure propagates. -/
def code_chain (gw : Gw) (analysis tools structureFields : Dict)
    (description : List Char) : Except PyErr (List Char) :=
  match gw (.code (codeArgs analysis tools structureFields description)) with
  | .error e => .error e
  | .ok text =>
    match stripFence? text with
    | some c => .ok (pstrip c)
    | none => .error .indexError

/-- Default mapping of review_chain, script_bot.py lines 366-372. -/
def reviewDefaults : Dict :=
  [(S "is_valid", .str (S "yes")),
   (S "syntax_errors", .str (S "none")),
   (S "structure_issues", .str (S "none")),
   (S "import_issues", .str (S "none")),
   (S "recommendations", .str (S "Код готов к использованию"))]

/-- Arguments substituted into the review template, script_bot.py line 361. -/
def reviewArgs (code : List Char) : Dict :=
  [(S "code", .str code)]

/-- Chain 5 of script_bot.py (lines 324-372). -/
def review_chain (gw : Gw) (parse : Parse) (code : List Char) : Dict :=
  match (gw (.review (reviewArgs code))).bind parse with
  | .ok r => r
  | .error _ => reviewDefaults

/-- The fixed output location of the bot pipeline, script_bot.py line 441. -/
def outputFile : List Char := S "generated_bot.py"

/-- The orchestrator of script_bot.py (generate_bot, lines 375-468):
sequences the five chains, then performs the single save attempt; a save
failure is caught and the artifact is still returned.  `saveErr` is the
outcome of the `open`/`write` call (an external filesystem effect): `none`
means it succeeds, `some e` means it raises `e`.  The returned event list
records the observable behaviour of the run in order. -/
def generate_bot (gw : Gw) (parse : Parse) (saveErr : Option PyErr)
    (description : List Char) : List Ev × Except PyErr (List Char) :=
  let analysis := analysis_chain gw parse description
  let tools := tools_selection_chain gw parse analysis description
  let structureFields := structure_chain gw parse analysis tools description
  match code_chain gw analysis tools structureFields description with
  | .error e =>
    ([.stage (S "analysis_chain") analysis,
      .stage (S "tools_selection_chain") tools,
      .stage (S "structure_chain") structureFields], .error e)
  | .ok code =>
    let review := review_chain gw parse code
    match saveErr with
    | some _ =>
      ([.stage (S "analysis_chain") analysis,
        .stage (S "tools_selection_chain") tools,
        .stage (S "structure_chain") structureFields,
        .gen code,
        .review review], .ok code)
    | none =>
      ([.stage (S "analysis_chain") analysis,
        .stage (S "tools_selection_chain") tools,
        .stage (S "structure_chain") structureFields,
        .gen code,
        .review review,
        .write outputFile code], .ok code)

end ScriptBot

namespace ScriptPost

/-- Gateway type for the post pipeline. -/
abbrev Gw := PromptP → Except PyErr (List Char)

abbrev Parse := List Char → Except PyErr Dict

/-- Python truthiness of the optional source text, script_post.py line 92:
an empty string is replaced by the fixed placeholder. -/
def sourceArg (sourceText : List Char) : List Char :=
  if sourceText = [] then S "Не предоставлен" else sourceText

/-- Default mapping of analysis_chain, script_post.py lines 98-104. -/
def analysisDefaults : Dict :=
  [(S "post_goal", .str (S "Информирование")),
   (S "target_audience", .str (S "Широкая аудитория")),
   (S "key_messages", .str (S "Основная информация по теме")),
   (S "tone_style", .str (S "Нейтральный")),
   (S "desired_length", .str (S "medium"))]

/-- Arguments substituted into the analysis template, script_post.py
lines 90-93. -/
def analysisArgs (topic sourceText : List Char) : Dict :=
  [(S "topic", .str topic),
   (S "source_text", .str (sourceArg sourceText))]

/-- Chain 1 of script_post.py (lines 56-104). -/
def analysis_chain (gw : Gw) (parse : Parse) (topic sourceText : List Char) : Dict :=
  match (gw (.analysis (analysisArgs topic sourceText))).bind parse with
  | .ok r => r
  | .error _ => analysisDefaults

/-- Default mapping of style_selection_chain, script_post.py lines 159-166. -/
def styleDefaults : Dict :=
  [(S "structure", .str (S "Заголовок, основной текст, заключение")),
   (S "use_emoji", .str (S "no")),
   (S "emoji_style", .str []),
   (S "cta", .str (S "Нет")),
   (S "hashtags", .str (S "Нет")),
   (S "formatting", .str (S "Абзацы"))]

/-- Arguments substituted into the style template, script_post.py
lines 147-154. -/
def styleArgs (analysis : Dict) (topic : List Char) : Dict :=
  [(S "topic", .str topic),
   (S "post_goal", pyGet analysis (S "post_goal") (.str [])),
   (S "target_audience", pyGet analysis (S "target_audience") (.str [])),
   (S "key_messages", pyGet analysis (S "key_messages") (.str [])),
   (S "tone_style", pyGet analysis (S "tone_style") (.str [])),
   (S "desired_length", pyGet analysis (S "desired_length") (.str (S "medium")))]

/-- Chain 2 of script_post.py (lines 107-166). -/
def style_selection_chain (gw : Gw) (parse : Parse) (analysis : Dict)
    (topic : List Char) : Dict :=
  match (gw (.style (styleArgs analysis topic))).bind parse with
  | .ok r => r
  | .error _ => styleDefaults

/-- Default mapping of structure_chain, script_post.py lines 226-232. -/
def structureDefaults : Dict :=
  [(S "headline", .str (S "Заголовок")),
   (S "intro", .str (S "Вступление")),
   (S "main_blocks", .str (S "Основной контент")),
   (S "conclusion", .str (S "Заключение")),
   (S "cta_text", .str [])]

/-- Arguments substituted into the structure template, script_post.py
lines 212-221. -/
def structureArgs (analysis style : Dict) (topic : List Char) : Dict :=
  [(S "topic", .str topic),
   (S "post_goal", pyGet analysis (S "post_goal") (.str [])),
   (S "target_audience", pyGet analysis (S "target_audience") (.str [])),
   (S "tone_style", pyGet analysis (S "tone_style") (.str [])),
   (S "structure", pyGet style (S "structure") (.str [])),
   (S "use_emoji", pyGet style (S "use_emoji") (.str (S "no"))),
   (S "cta", pyGet style (S "cta") (.str [])),
   (S "hashtags", pyGet style (S "hashtags") (.str []))]

/-- Chain 3 of script_post.py (lines 169-232). -/
def structure_chain (gw : Gw) (parse : Parse) (analysis style : Dict)
    (topic : List Char) : Dict :=
  match (gw (.structureStage (structureArgs analysis style topic))).bind parse with
  | .ok r => r
  | .error _ => structureDefaults

/-- Arguments substituted into the content template, script_post.py
lines 289-304. -/
def contentArgs (analysis style structureFields : Dict)
    (topic sourceText : List Char) : Dict :=
  [(S "topic", .str topic),
   (S "source_text", .str (sourceArg sourceText)),
   (S "post_goal", pyGet analysis (S "post_goal") (.str [])),
   (S "target_audience", pyGet analysis (S "target_audience") (.str [])),
   (S "tone_style", pyGet analysis (S "tone_style") (.str [])),
   (S "desired_length", pyGet analysis (S "desired_length") (.str (S "medium"))),
   (S "structure_format", pyGet style (S "structure") (.str [])),
   (S "use_emoji", pyGet style (S "use_emoji") (.str (S "no"))),
   (S "formatting", pyGet style (S "formatting") (.str [])),
   (S "headline", pyGet structureFields (S "headline") (.str [])),
   (S "intro", pyGet structureFields (S "intro") (.str [])),
   (S "main_blocks", pyGet structureFields (S "main_blocks") (.str [])),
   (S "conclusion", pyGet structureFields (S "conclusion") (.str [])),
   (S "cta_text", pyGet structureFields (S "cta_text") (.str []))]

/-- Chain 4 of script_post.py (lines 235-308): a plain string parser
(StrOutputParser), no exception handler, result trimmed (line 306).  A
gateway failure propagates. -/
def content_generation_chain (gw : Gw) (analysis style structureFields : Dict)
    (topic sourceText : List Char) : Except PyErr (List Char) :=
  match gw (.content (contentArgs analysis style structureFields topic sourceText)) with
  | .error e => .error e
  | .ok text => .ok (pstrip text)

/-- Default mapping of review_chain, script_post.py lines 351-357. -/
def reviewDefaults : Dict :=
  [(S "is_ready", .str (S "yes")),
   (S "completeness", .str (S "Пост завершен")),
   (S "structure_quality", .str (S "Хорошая структура")),
   (S "engagement", .str (S "Достаточно вовлекающий")),
   (S "recommendations", .str (S "Пост готов к публикации"))]

/-- Arguments substituted into the review template, script_post.py line 346. -/
def reviewArgs (postContent : List Char) : Dict :=
  [(S "post_content", .str postContent)]

/-- Chain 5 of script_post.py (lines 311-357). -/
def review_chain (gw : Gw) (parse : Parse) (postContent : List Char) : Dict :=
  match (gw (.review (reviewArgs postContent))).bind parse with
  | .ok r => r
  | .error _ => reviewDefaults

/-- The fixed output location of the post pipeline, script_post.py line 429. -/
def outputFile : List Char := S "generated_post.txt"

/-- The persisted file contents of the post pipeline, script_post.py lines
431-435: a header block (topic line, generation-timestamp line, a rule of
eighty equals signs, a blank line) followed by the artifact body.  `now` is
the formatted `datetime.now()` string read during the save step. -/
def fileContent (topic now post : List Char) : List Char :=
  S "# ТЕМА: " ++ topic ++ S "\n"
    ++ S "# Дата генерации: " ++ now ++ S "\n"
    ++ List.replicate 80 '=' ++ S "\n\n"
    ++ post

/-- The orchestrator of script_post.py (generate_post, lines 360-451),
analogous to `ScriptBot.generate_bot`; the extra `now` input is the clock
reading used in the persisted header. -/
def generate_post (gw : Gw) (parse : Parse) (saveErr : Option PyErr)
    (now topic sourceText : List Char) : List Ev × Except PyErr (List Char) :=
  let analysis := analysis_chain gw parse topic sourceText
  let style := style_selection_chain gw parse analysis topic
  let structureFields := structure_chain gw parse analysis style topic
  match content_generation_chain gw analysis style structureFields topic sourceText with
  | .error e =>
    ([.stage (S "analysis_chain") analysis,
      .stage (S "style_selection_chain") style,
      .stage (S "structure_chain") structureFields], .error e)
  | .ok post =>
    let review := review_chain gw parse post
    match saveErr with
    | some _ =>
      ([.stage (S "analysis_chain") analysis,
        .stage (S "style_selection_chain") style,
        .stage (S "structure_chain") structureFields,
        .gen post,
        .review review], .ok post)
    | none =>
      ([.stage (S "analysis_chain") analysis,
        .stage (S "style_selection_chain") style,
        .stage (S "structure_chain") structureFields,
        .gen post,
        .review review,
        .write outputFile (fileContent topic now post)], .ok post)

end ScriptPost

/-! ### Structural facts about the orchestrators -/

/-- Every bot-pipeline run has one of three shapes: aborted by the
generation stage with no artifact event and no write, completed with a
failing save, or completed with the single write as final event. -/
theorem generate_bot_shape (gw : ScriptBot.Gw) (parse : ScriptBot.Parse)
    (saveErr : Option PyErr) (description : List Char) :
    (∃ a t s e, ScriptBot.generate_bot gw parse saveErr description
        = ([.stage (S "analysis_chain") a,
            .stage (S "tools_selection_chain") t,
            .stage (S "structure_chain") s], .error e))
    ∨ (∃ a t s code rv e2, saveErr = some e2
        ∧ ScriptBot.generate_bot gw parse saveErr description
        = ([.stage (S "analysis_chain") a,
            .stage (S "tools_selection_chain") t,
            .stage (S "structure_chain") s,
            .gen code,
            .review rv], .ok code))
    ∨ (∃ a t s code rv, saveErr = none
        ∧ ScriptBot.generate_bot gw parse saveErr description
        = ([.stage (S "analysis_chain") a,
            .stage (S "tools_selection_chain") t,
            .stage (S "structure_chain") s,
            .gen code,
            .review rv,
            .write ScriptBot.outputFile code], .ok code)) := by
  simp only [ScriptBot.generate_bot]
  set A := ScriptBot.analysis_chain gw parse description with hA
  set T := ScriptBot.tools_selection_chain gw parse A description with hT
  set St := ScriptBot.structure_chain gw parse A T description with hSt
  cases hcc : ScriptBot.code_chain gw A T St description with
  | error e => exact Or.inl ⟨A, T, St, e, rfl⟩
  | ok code =>
    cases saveErr with
    | some e2 => exact Or.inr (Or.inl ⟨A, T, St, code, _, e2, rfl, rfl⟩)
    | none => exact Or.inr (Or.inr ⟨A, T, St, code, _, rfl, rfl⟩)

/-- Every post-pipeline run has one of three shapes, with the single write
carrying the header-plus-body file contents. -/
theorem generate_post_shape (gw : ScriptPost.Gw) (parse : ScriptPost.Parse)
    (saveErr : Option PyErr) (now topic sourceText : List Char) :
    (∃ a t s e, ScriptPost.generate_post gw parse saveErr now topic sourceText
        = ([.stage (S "analysis_chain") a,
            .stage (S "style_selection_chain") t,
            .stage (S "structure_chain") s], .error e))
    ∨ (∃ a t s post rv e2, saveErr = some e2
        ∧ ScriptPost.generate_post gw parse saveErr now topic sourceText
        = ([.stage (S "analysis_chain") a,
            .stage (S "style_selection_chain") t,
            .stage (S "structure_chain") s,
            .gen post,
            .review rv], .ok post))
    ∨ (∃ a t s post rv, saveErr = none
        ∧ ScriptPost.generate_post gw parse saveErr now topic sourceText
        = ([.stage (S "analysis_chain") a,
            .stage (S "style_selection_chain") t,
            .stage (S "structure_chain") s,
            .gen post,
            .review rv,
            .write ScriptPost.outputFile (ScriptPost.fileContent topic now post)], .ok post)) := by
  simp only [ScriptPost.generate_post]
  set A := ScriptPost.analysis_chain gw parse topic sourceText with hA
  set T := ScriptPost.style_selection_chain gw parse A topic with hT
  set St := ScriptPost.structure_chain gw parse A T topic with hSt
  cases hcc : ScriptPost.content_generation_chain gw A T St topic sourceText with
  | error e => exact Or.inl ⟨A, T, St, e, rfl⟩
  | ok post =>
    cases saveErr with
    | some e2 => exact Or.inr (Or.inl ⟨A, T, St, post, _, e2, rfl, rfl⟩)
    | none => exact Or.inr (Or.inr ⟨A, T, St, post, _, rfl, rfl⟩)

/-! ### Concrete gateway and decoder stubs used in the closed checks -/

/-- A structured decoder that decodes every text to the empty record. -/
def parseEmpty : List Char → Except PyErr Dict := fun _ => .ok []

/-- A structured decoder that fails on every text. -/
def parseFailAll : List Char → Except PyErr Dict := fun _ => .error (.parse (S "bad json"))

/-- A structured decoder that decodes every text to a partial record. -/
def parsePartial : List Char → Except PyErr Dict :=
  fun _ => .ok [(S "bot_purpose", Val.str (S "Echo bot"))]

/-- A bot gateway stub that raises a transport error exactly at stage 3
(the structure stage) and answers every other prompt. -/
def gwFailStage3 : ScriptBot.Gw := fun p =>
  match p with
  | .structureStage _ => .error (.gateway (S "transport error"))
  | _ => .ok (S "{}")

/-- A bot gateway stub that raises only at the generation stage. -/
def gwCodeFailB : ScriptBot.Gw := fun p =>
  match p with
  | .code _ => .error (.gateway (S "down"))
  | _ => .ok (S "{}")

/-- A bot gateway stub returning the same fixed text for every prompt. -/
def gwOkB : ScriptBot.Gw := fun _ => .ok (S "print(1)")

/-- A post gateway stub returning the same fixed text for every prompt. -/
def gwDetP : ScriptPost.Gw := fun _ => .ok (S "text")

/-- A bot gateway stub answering each stage with a distinct fixed text, so
a decoder can fail on one stage only. -/
def gwTagB : ScriptBot.Gw := fun p =>
  match p with
  | .analysis _ => .ok (S "a")
  | .tools _ => .ok (S "garbage")
  | .structureStage _ => .ok (S "s")
  | .code _ => .ok (S "print(1)")
  | .review _ => .ok (S "r")

/-- A structured decoder failing exactly on the stage-2 text of `gwTagB`
(the spec scenario: unparsable garbage at stage 2 only). -/
def parseStage2Fails : List Char → Except PyErr Dict := fun t =>
  if t = S "garbage" then .error (.parse (S "bad json")) else .ok []

/-!
## The claims
-/

/-- Claim C10: the fence-stripping step of the generation stage is total:
on every input string the guarded split-and-index expressions produce a
value (first conjunct, over all strings), because each indexing is guarded
by the containment check; and an unclosed fence — tagged (second conjunct)
or untagged (third conjunct) — yields all the text after the opening
delimiter. -/
theorem c10_strip_totality (text a b : List Char) :
    (stripFence? text).isSome = true
    ∧ (findSplit fencePy text = some (a, b) → containsL b fence3 = false →
        stripFence? text = some b)
    ∧ (containsL text fencePy = false → findSplit fence3 text = some (a, b) →
        containsL b fence3 = false → stripFence? text = some b) := by
  refine ⟨stripFence_total text, ?_, ?_⟩
  · intro hf hb
    have hb3 : findSplit fence3 b = none := containsL_false_iff.mp hb
    have hbPy : findSplit fencePy b = none := by
      apply findSplit_none_of_suffix fencePy_ne_nil
      intro zs hz
      have h3 := findSplit_none_suffix fence3_ne_nil hb3 zs hz
      cases hp : isPrefixL fencePy zs with
      | false => rfl
      | true =>
        rw [isPrefixL_fence3_of_fencePy hp] at h3
        exact Bool.noConfusion h3
    have hguard : containsL text fencePy = true := by
      unfold containsL; rw [hf]; rfl
    unfold stripFence?
    rw [if_pos hguard, pySplit_get1 fencePy_ne_nil hf, hbPy]
    show (pySplit b fence3).get? 0 = some b
    rw [pySplit_get0 fence3_ne_nil, hb3]
  · intro hg hf hb
    have hb3 : findSplit fence3 b = none := containsL_false_iff.mp hb
    have hguard2 : containsL text fence3 = true := by
      unfold containsL; rw [hf]; rfl
    unfold stripFence?
    rw [if_neg (by simp [hg]), if_pos hguard2, pySplit_get1 fence3_ne_nil hf, hb3]
    show (pySplit b fence3).get? 0 = some b
    rw [pySplit_get0 fence3_ne_nil, hb3]

theorem c10_strip_totality_witness :
    stripFence? (S "abc```def") = some (S "def")
    ∧ containsL (S "abc```def") fencePy = false :=
  ⟨(c10_strip_totality (S "abc```def") (S "abc") (S "def")).2.2
      (by decide) (by decide) (by decide),
    by decide⟩

/-- Claim C5 (amended): the Artifact Unwrapper follows the claimed branch
order, except that in each branch the extracted content is additionally
trimmed of leading/trailing whitespace.  The four conjuncts are exhaustive
over all inputs.  With a tagged opening delimiter and no later tagged
opening (first conjunct), the result is the trimmed content strictly
between the tagged opening and the next closing delimiter — all the
remaining text when no closing exists — with trailing content after the
closing discarded.  With a later tagged opening present (second conjunct)
only the first pair is honored: the extraction window is the segment
before the next tagged opening, and the result is the trimmed content of
that window up to the next closing delimiter.  With no tagged opening but
an untagged delimiter (third conjunct), the result is the trimmed content
between the first and second untagged delimiters (all following text when
there is no second).  With no delimiter at all (fourth conjunct), the
result is the raw text, trimmed. -/
theorem c5_unwrap_cases (text a b seg rest : List Char) :
    (findSplit fencePy text = some (a, b) → findSplit fencePy b = none →
        unwrapB text
          = pstrip (match findSplit fence3 b with | none => b | some p => p.1))
    ∧ (findSplit fencePy text = some (a, b) → findSplit fencePy b = some (seg, rest) →
        unwrapB text
          = pstrip (match findSplit fence3 seg with | none => seg | some p => p.1))
    ∧ (containsL text fencePy = false → findSplit fence3 text = some (a, b) →
        unwrapB text
          = pstrip (match findSplit fence3 b with | none => b | some p => p.1))
    ∧ (containsL text fencePy = false → containsL text fence3 = false →
        unwrapB text = pstrip text) := by
  refine ⟨?_, ?_, ?_, ?_⟩
  · intro hf hb
    have hguard : containsL text fencePy = true := by
      unfold containsL; rw [hf]; rfl
    unfold unwrapB stripFence?
    rw [if_pos hguard, pySplit_get1 fencePy_ne_nil hf, hb]
    show pstrip (((pySplit b fence3).get? 0).getD [])
      = pstrip (match findSplit fence3 b with | none => b | some p => p.1)
    rw [pySplit_get0 fence3_ne_nil]
    rfl
  · intro hf hb
    have hguard : containsL text fencePy = true := by
      unfold containsL; rw [hf]; rfl
    unfold unwrapB stripFence?
    rw [if_pos hguard, pySplit_get1 fencePy_ne_nil hf, hb]
    show pstrip (((pySplit seg fence3).get? 0).getD [])
      = pstrip (match findSplit fence3 seg with | none => seg | some p => p.1)
    rw [pySplit_get0 fence3_ne_nil]
    rfl
  · intro hg hf
    have hguard2 : containsL text fence3 = true := by
      unfold containsL; rw [hf]; rfl
    unfold unwrapB stripFence?
    rw [if_neg (by simp [hg]), if_pos hguard2, pySplit_get1 fence3_ne_nil hf]
    cases h3 : findSplit fence3 b with
    | none =>
      show pstrip (((pySplit b fence3).get? 0).getD []) = pstrip b
      rw [pySplit_get0 fence3_ne_nil, h3]
      rfl
    | some p =>
      obtain ⟨m2, r2⟩ := p
      have hm := findSplit_before fence3_ne_nil h3
      show pstrip (((pySplit m2 fence3).get? 0).getD []) = pstrip m2
      rw [pySplit_get0 fence3_ne_nil, hm]
      rfl
  · intro hg1 hg2
    unfold unwrapB stripFence?
    rw [if_neg (by simp [hg1]), if_neg (by simp [hg2])]
    rfl

theorem c5_unwrap_cases_witness :
    unwrapB (S "```python\nA\n``` tail") = pstrip (S "\nA\n")
    ∧ unwrapB (S "```python\nA\n```python\nB\n```") = S "A" := by
  constructor
  · have h := (c5_unwrap_cases (S "```python\nA\n``` tail") (S "")
        (S "\nA\n``` tail") (S "x") (S "y")).1 (by decide) (by decide)
    exact h.trans (by decide)
  · have h := (c5_unwrap_cases (S "```python\nA\n```python\nB\n```") (S "")
        (S "\nA\n```python\nB\n```") (S "\nA\n") (S "\nB\n```")).2.1
        (by decide) (by decide)
    exact h.trans (by decide)

/-- Claim C5, counterexample to the claim as stated: on a well-formed
tagged fenced block the unwrapper does not return the content strictly
between the delimiters — it returns that content trimmed. -/
theorem c5_unwrap_counterexample :
    unwrapB (S "```python\nx\n```") = S "x"
    ∧ specBetween fencePy fence3 (S "```python\nx\n```") = some (S "\nx\n")
    ∧ S "x" ≠ S "\nx\n" :=
  ⟨by decide, by decide, by decide⟩

/-- Claim C4 (amended): for an artifact text `T` that does not contain the
fence delimiter, wrapping `T` in a language-tagged fence (opening delimiter
line, `T`, closing delimiter line) and unwrapping returns `T` trimmed of
leading/trailing whitespace — exactly `T` whenever `T` carries no
leading/trailing whitespace (second conjunct).  Third conjunct: the same
round trip holds through the generation stage itself. -/
theorem c4_roundtrip_amended (T : List Char) (hT : containsL T fence3 = false) :
    unwrapB (wrapTagged T) = pstrip T
    ∧ (pstrip T = T → unwrapB (wrapTagged T) = T)
    ∧ ∀ (gw : ScriptBot.Gw) (analysis tools structureFields : Dict)
        (description : List Char),
        gw (.code (ScriptBot.codeArgs analysis tools structureFields description))
            = .ok (wrapTagged T) →
        ScriptBot.code_chain gw analysis tools structureFields description
            = .ok (pstrip T) := by
  have h1 := unwrapB_wrapTagged hT
  refine ⟨h1, fun h2 => by rw [h1, h2], ?_⟩
  intro gw analysis tools structureFields description hgw
  unfold ScriptBot.code_chain
  rw [hgw]
  show (match stripFence? (wrapTagged T) with
        | some c => Except.ok (pstrip c)
        | none => Except.error PyErr.indexError) = Except.ok (pstrip T)
  rw [stripFence_wrapTagged hT]
  show Except.ok (pstrip ('\n' :: (T ++ ['\n']))) = Except.ok (pstrip T)
  rw [pstrip_cons_ws (by decide), pstrip_append_ws (by decide)]

theorem c4_roundtrip_witness :
    containsL (S "x") fence3 = false ∧ unwrapB (wrapTagged (S "x")) = S "x" :=
  ⟨by decide, by rw [(c4_roundtrip_amended (S "x") (by decide)).1]; decide⟩

/-- Claim C4, counterexample to the claim as stated: wrapping a text with
trailing whitespace and unwrapping does not return it exactly — the
unwrapper trims it. -/
theorem c4_roundtrip_counterexample :
    containsL (S "x ") fence3 = false
    ∧ unwrapB (wrapTagged (S "x ")) = S "x"
    ∧ unwrapB (wrapTagged (S "x ")) ≠ S "x " :=
  ⟨by decide, by decide, by decide⟩

/-- Claim C2: for every structured stage of both pipelines, when the
Model Gateway returns a text on which structured decoding fails, the stage
returns exactly the declared default mapping of that stage, field for
field (one conjunct per stage, each conditioned only on the decode of that
stage failing); the failure is contained — the chains are total functions —
and never aborts the run: whenever the Gateway call of the generation stage
succeeds, the whole pipeline completes with an Artifact, whatever `parse`
does (last two conjuncts, bot and post pipelines). -/
theorem c2_decode_failure_defaults (gw : ScriptBot.Gw) (gwp : ScriptPost.Gw)
    (parse : List Char → Except PyErr Dict) (e : PyErr) (saveErr : Option PyErr)
    (description now topic sourceText code post t : List Char) (d1 d2 : Dict) :
    (gw (.analysis (ScriptBot.analysisArgs description)) = .ok t →
        parse t = .error e →
        ScriptBot.analysis_chain gw parse description = ScriptBot.analysisDefaults)
    ∧ (gw (.tools (ScriptBot.toolsArgs d1 description)) = .ok t →
        parse t = .error e →
        ScriptBot.tools_selection_chain gw parse d1 description = ScriptBot.toolsDefaults)
    ∧ (gw (.structureStage (ScriptBot.structureArgs d1 d2 description)) = .ok t →
        parse t = .error e →
        ScriptBot.structure_chain gw parse d1 d2 description = ScriptBot.structureDefaults)
    ∧ (gw (.review (ScriptBot.reviewArgs code)) = .ok t →
        parse t = .error e →
        ScriptBot.review_chain gw parse code = ScriptBot.reviewDefaults)
    ∧ (gwp (.analysis (ScriptPost.analysisArgs topic sourceText)) = .ok t →
        parse t = .error e →
        ScriptPost.analysis_chain gwp parse topic sourceText = ScriptPost.analysisDefaults)
    ∧ (gwp (.style (ScriptPost.styleArgs d1 topic)) = .ok t →
        parse t = .error e →
        ScriptPost.style_selection_chain gwp parse d1 topic = ScriptPost.styleDefaults)
    ∧ (gwp (.structureStage (ScriptPost.structureArgs d1 d2 topic)) = .ok t →
        parse t = .error e →
        ScriptPost.structure_chain gwp parse d1 d2 topic = ScriptPost.structureDefaults)
    ∧ (gwp (.review (ScriptPost.reviewArgs post)) = .ok t →
        parse t = .error e →
        ScriptPost.review_chain gwp parse post = ScriptPost.reviewDefaults)
    ∧ ((∀ args, ∃ text, gw (.code args) = .ok text) →
        ∃ art, (ScriptBot.generate_bot gw parse saveErr description).2 = .ok art)
    ∧ ((∀ args, ∃ text, gwp (.content args) = .ok text) →
        ∃ art, (ScriptPost.generate_post gwp parse saveErr now topic sourceText).2
          = .ok art) := by
  refine ⟨fun h1 h2 => ?_, fun h1 h2 => ?_, fun h1 h2 => ?_, fun h1 h2 => ?_,
          fun h1 h2 => ?_, fun h1 h2 => ?_, fun h1 h2 => ?_, fun h1 h2 => ?_,
          ?_, ?_⟩
  · simp [ScriptBot.analysis_chain, h1, h2, Except.bind]
  · simp [ScriptBot.tools_selection_chain, h1, h2, Except.bind]
  · simp [ScriptBot.structure_chain, h1, h2, Except.bind]
  · simp [ScriptBot.review_chain, h1, h2, Except.bind]
  · simp [ScriptPost.analysis_chain, h1, h2, Except.bind]
  · simp [ScriptPost.style_selection_chain, h1, h2, Except.bind]
  · simp [ScriptPost.structure_chain, h1, h2, Except.bind]
  · simp [ScriptPost.review_chain, h1, h2, Except.bind]
  · intro h
    simp only [ScriptBot.generate_bot]
    set A := ScriptBot.analysis_chain gw parse description with hA
    set T := ScriptBot.tools_selection_chain gw parse A description with hT
    set St := ScriptBot.structure_chain gw parse A T description with hSt
    have hcc : ∃ art, ScriptBot.code_chain gw A T St description = .ok art := by
      obtain ⟨text, htext⟩ := h (ScriptBot.codeArgs A T St description)
      unfold ScriptBot.code_chain
      rw [htext]
      show ∃ art, (match stripFence? text with
          | some c => Except.ok (pstrip c)
          | none => Except.error PyErr.indexError) = Except.ok art
      cases hsf : stripFence? text with
      | some c => exact ⟨pstrip c, rfl⟩
      | none =>
        have htot := stripFence_total text
        rw [hsf] at htot
        exact absurd htot (by simp)
    obtain ⟨art, hart⟩ := hcc
    rw [hart]
    cases saveErr with
    | some e2 => exact ⟨art, rfl⟩
    | none => exact ⟨art, rfl⟩
  · intro h
    simp only [ScriptPost.generate_post]
    set A := ScriptPost.analysis_chain gwp parse topic sourceText with hA
    set T := ScriptPost.style_selection_chain gwp parse A topic with hT
    set St := ScriptPost.structure_chain gwp parse A T topic with hSt
    have hcc : ∃ art, ScriptPost.content_generation_chain gwp A T St topic sourceText
        = .ok art := by
      obtain ⟨text, htext⟩ := h (ScriptPost.contentArgs A T St topic sourceText)
      refine ⟨pstrip text, ?_⟩
      unfold ScriptPost.content_generation_chain
      rw [htext]
    obtain ⟨art, hart⟩ := hcc
    rw [hart]
    cases saveErr with
    | some e2 => exact ⟨art, rfl⟩
    | none => exact ⟨art, rfl⟩

theorem c2_decode_failure_defaults_witness :
    ScriptBot.tools_selection_chain gwTagB parseStage2Fails
        (ScriptBot.analysis_chain gwTagB parseStage2Fails (S "d")) (S "d")
      = ScriptBot.toolsDefaults
    ∧ (ScriptBot.generate_bot gwTagB parseStage2Fails none (S "d")).2
      = .ok (S "print(1)") := by
  constructor
  · exact (c2_decode_failure_defaults gwTagB gwDetP parseStage2Fails
      (.parse (S "bad json")) none (S "d") (S "n") (S "t") (S "s") (S "c") (S "p")
      (S "garbage")
      (ScriptBot.analysis_chain gwTagB parseStage2Fails (S "d")) []).2.1
      rfl (by decide)
  · decide

/-- Claim C6: for every structured stage of both pipelines, when the
gateway text decodes successfully the stage's resulting fields are the
decoded record verbatim — `r` is arbitrary, in particular a partial record:
present keys are not overridden by defaults and absent keys are not
backfilled at extraction time (downstream reads go through `pyGet`, the
`.get`-style per-field lookup visible in the argument builders). -/
theorem c6_verbatim_decode (gw : ScriptBot.Gw) (gwp : ScriptPost.Gw)
    (parse : List Char → Except PyErr Dict)
    (description topic sourceText code post : List Char) (d1 d2 r : Dict) :
    ((gw (.analysis (ScriptBot.analysisArgs description))).bind parse = .ok r →
        ScriptBot.analysis_chain gw parse description = r)
    ∧ ((gw (.tools (ScriptBot.toolsArgs d1 description))).bind parse = .ok r →
        ScriptBot.tools_selection_chain gw parse d1 description = r)
    ∧ ((gw (.structureStage (ScriptBot.structureArgs d1 d2 description))).bind parse = .ok r →
        ScriptBot.structure_chain gw parse d1 d2 description = r)
    ∧ ((gw (.review (ScriptBot.reviewArgs code))).bind parse = .ok r →
        ScriptBot.review_chain gw parse code = r)
    ∧ ((gwp (.analysis (ScriptPost.analysisArgs topic sourceText))).bind parse = .ok r →
        ScriptPost.analysis_chain gwp parse topic sourceText = r)
    ∧ ((gwp (.style (ScriptPost.styleArgs d1 topic))).bind parse = .ok r →
        ScriptPost.style_selection_chain gwp parse d1 topic = r)
    ∧ ((gwp (.structureStage (ScriptPost.structureArgs d1 d2 topic))).bind parse = .ok r →
        ScriptPost.structure_chain gwp parse d1 d2 topic = r)
    ∧ ((gwp (.review (ScriptPost.reviewArgs post))).bind parse = .ok r →
        ScriptPost.review_chain gwp parse post = r) := by
  refine ⟨fun h => ?_, fun h => ?_, fun h => ?_, fun h => ?_,
          fun h => ?_, fun h => ?_, fun h => ?_, fun h => ?_⟩
  · simp [ScriptBot.analysis_chain, h]
  · simp [ScriptBot.tools_selection_chain, h]
  · simp [ScriptBot.structure_chain, h]
  · simp [ScriptBot.review_chain, h]
  · simp [ScriptPost.analysis_chain, h]
  · simp [ScriptPost.style_selection_chain, h]
  · simp [ScriptPost.structure_chain, h]
  · simp [ScriptPost.review_chain, h]

theorem c6_verbatim_decode_witness :
    ScriptBot.analysis_chain gwOkB parsePartial (S "d")
      = [(S "bot_purpose", Val.str (S "Echo bot"))] :=
  (c6_verbatim_decode gwOkB gwDetP parsePartial (S "d") (S "t") (S "s") (S "c") (S "p")
      [] [] [(S "bot_purpose", Val.str (S "Echo bot"))]).1 rfl

/-- Claim C1, counterexample to the claim as stated: with a gateway stub
that raises a transport error exactly at stage 3 (`gwFailStage3`), the run
does not end in fatal failure — the stage's broad exception handler absorbs
the gateway error into the stage defaults (first conjunct), the run
completes successfully (second conjunct) and the output file is written
(third conjunct). -/
theorem c1_gateway_counterexample :
    Ev.stage (S "structure_chain") ScriptBot.structureDefaults
        ∈ (ScriptBot.generate_bot gwFailStage3 parseEmpty none (S "demo")).1
    ∧ (ScriptBot.generate_bot gwFailStage3 parseEmpty none (S "demo")).2 = .ok (S "{}")
    ∧ Ev.write ScriptBot.outputFile (S "{}")
        ∈ (ScriptBot.generate_bot gwFailStage3 parseEmpty none (S "demo")).1 :=
  ⟨by decide, by decide, by decide⟩

/-- Claim C1 (amended): only the generation stage leaves Gateway failures
unhandled — there they propagate as the fatal pipeline error and the run
terminates without any write (first two conjuncts, bot and post pipelines);
at every other stage a Gateway failure is caught by the stage's exception
handler exactly like a decode failure and replaced by the stage's default
mapping, with no retry (remaining conjuncts). -/
theorem c1_gateway_amended (gw : ScriptBot.Gw) (gwp : ScriptPost.Gw)
    (parse : List Char → Except PyErr Dict) (saveErr : Option PyErr) (e : PyErr)
    (description now topic sourceText code : List Char) (d1 d2 : Dict) :
    ((∀ args, gw (.code args) = .error e) →
        (ScriptBot.generate_bot gw parse saveErr description).2 = .error e
        ∧ ∀ f c, Ev.write f c ∉ (ScriptBot.generate_bot gw parse saveErr description).1)
    ∧ ((∀ args, gwp (.content args) = .error e) →
        (ScriptPost.generate_post gwp parse saveErr now topic sourceText).2 = .error e
        ∧ ∀ f c, Ev.write f c
            ∉ (ScriptPost.generate_post gwp parse saveErr now topic sourceText).1)
    ∧ ((∀ args, gw (.analysis args) = .error e) →
        ScriptBot.analysis_chain gw parse description = ScriptBot.analysisDefaults)
    ∧ ((∀ args, gw (.tools args) = .error e) →
        ScriptBot.tools_selection_chain gw parse d1 description = ScriptBot.toolsDefaults)
    ∧ ((∀ args, gw (.structureStage args) = .error e) →
        ScriptBot.structure_chain gw parse d1 d2 description = ScriptBot.structureDefaults)
    ∧ ((∀ args, gw (.review args) = .error e) →
        ScriptBot.review_chain gw parse code = ScriptBot.reviewDefaults) := by
  refine ⟨?_, ?_, ?_, ?_, ?_, ?_⟩
  · intro h
    have hcc : ∀ a t s, ScriptBot.code_chain gw a t s description = .error e := by
      intro a t s
      unfold ScriptBot.code_chain
      rw [h _]
    constructor
    · simp only [ScriptBot.generate_bot, hcc]
    · intro f c
      simp only [ScriptBot.generate_bot, hcc]
      simp
  · intro h
    have hcc : ∀ a t s, ScriptPost.content_generation_chain gwp a t s topic sourceText
        = .error e := by
      intro a t s
      unfold ScriptPost.content_generation_chain
      rw [h _]
    constructor
    · simp only [ScriptPost.generate_post, hcc]
    · intro f c
      simp only [ScriptPost.generate_post, hcc]
      simp
  · intro h
    simp [ScriptBot.analysis_chain, h _, Except.bind]
  · intro h
    simp [ScriptBot.tools_selection_chain, h _, Except.bind]
  · intro h
    simp [ScriptBot.structure_chain, h _, Except.bind]
  · intro h
    simp [ScriptBot.review_chain, h _, Except.bind]

theorem c1_gateway_witness :
    (ScriptBot.generate_bot gwCodeFailB parseEmpty none (S "d")).2
        = .error (.gateway (S "down"))
    ∧ Ev.write ScriptBot.outputFile (S "x")
        ∉ (ScriptBot.generate_bot gwCodeFailB parseEmpty none (S "d")).1 := by
  have h := (c1_gateway_amended gwCodeFailB gwDetP parseEmpty none (.gateway (S "down"))
      (S "d") (S "n") (S "t") (S "s") (S "c") [] []).1 (fun _ => rfl)
  exact ⟨h.1, h.2 _ _⟩

/-- Claim C3, counterexample to the claim as stated: with a fixed Brief
and a deterministic gateway stub, two full post-pipeline runs (performed at
different clock readings, which the claim quantifies over by saying "two
runs") produce byte-identical Artifacts but NOT byte-identical persisted
files: the persisted bytes embed the generation timestamp. -/
theorem c3_idempotence_counterexample :
    Ev.write ScriptPost.outputFile
        (ScriptPost.fileContent (S "Тема") (S "2024-01-01 00:00:00") (S "text"))
      ∈ (ScriptPost.generate_post gwDetP parseEmpty none
          (S "2024-01-01 00:00:00") (S "Тема") []).1
    ∧ Ev.write ScriptPost.outputFile
        (ScriptPost.fileContent (S "Тема") (S "2024-01-02 00:00:00") (S "text"))
      ∈ (ScriptPost.generate_post gwDetP parseEmpty none
          (S "2024-01-02 00:00:00") (S "Тема") []).1
    ∧ (ScriptPost.generate_post gwDetP parseEmpty none
          (S "2024-01-01 00:00:00") (S "Тема") []).2
      = (ScriptPost.generate_post gwDetP parseEmpty none
          (S "2024-01-02 00:00:00") (S "Тема") []).2
    ∧ ScriptPost.fileContent (S "Тема") (S "2024-01-01 00:00:00") (S "text")
      ≠ ScriptPost.fileContent (S "Тема") (S "2024-01-02 00:00:00") (S "text") :=
  ⟨by decide, by decide, by decide, by decide⟩

/-- The post-pipeline outcome (the returned Artifact or error) does not
depend on the clock reading; only the persisted header does. -/
theorem generate_post_result_now (gwp : ScriptPost.Gw) (parse : ScriptPost.Parse)
    (saveErr : Option PyErr) (topic sourceText now1 now2 : List Char) :
    (ScriptPost.generate_post gwp parse saveErr now1 topic sourceText).2
      = (ScriptPost.generate_post gwp parse saveErr now2 topic sourceText).2 := by
  simp only [ScriptPost.generate_post]
  cases hcc : ScriptPost.content_generation_chain gwp
      (ScriptPost.analysis_chain gwp parse topic sourceText)
      (ScriptPost.style_selection_chain gwp parse
        (ScriptPost.analysis_chain gwp parse topic sourceText) topic)
      (ScriptPost.structure_chain gwp parse
        (ScriptPost.analysis_chain gwp parse topic sourceText)
        (ScriptPost.style_selection_chain gwp parse
          (ScriptPost.analysis_chain gwp parse topic sourceText) topic) topic)
      topic sourceText with
  | error e => rfl
  | ok post =>
    cases saveErr with
    | some e2 => rfl
    | none => rfl

/-- Claim C3 (amended): with a fixed Brief and a deterministic gateway
stub, two runs produce byte-identical Artifacts for both pipelines (the
post Artifact does not depend on the clock, first conjunct; both runs are
pure functions of their inputs by construction).  The persisted bytes of
the bot pipeline equal the Artifact, hence are also run-independent
(second conjunct); the persisted bytes of the post pipeline differ between
runs exactly in the timestamp header (third conjunct). -/
theorem c3_idempotence_amended (gw : ScriptBot.Gw) (gwp : ScriptPost.Gw)
    (parse : List Char → Except PyErr Dict) (saveErr : Option PyErr)
    (description topic sourceText now1 now2 : List Char) :
    (ScriptPost.generate_post gwp parse saveErr now1 topic sourceText).2
      = (ScriptPost.generate_post gwp parse saveErr now2 topic sourceText).2
    ∧ (∀ f c, Ev.write f c ∈ (ScriptBot.generate_bot gw parse saveErr description).1 →
        (ScriptBot.generate_bot gw parse saveErr description).2 = .ok c)
    ∧ (∀ art, (ScriptPost.generate_post gwp parse saveErr now1 topic sourceText).2
          = .ok art → saveErr = none →
        Ev.write ScriptPost.outputFile (ScriptPost.fileContent topic now1 art)
          ∈ (ScriptPost.generate_post gwp parse saveErr now1 topic sourceText).1
        ∧ Ev.write ScriptPost.outputFile (ScriptPost.fileContent topic now2 art)
          ∈ (ScriptPost.generate_post gwp parse saveErr now2 topic sourceText).1) := by
  refine ⟨generate_post_result_now gwp parse saveErr topic sourceText now1 now2, ?_, ?_⟩
  · intro f c hmem
    rcases generate_bot_shape gw parse saveErr description with
      ⟨a, t, s, e, hsh⟩ | ⟨a, t, s, code2, rv, e2, _, hsh⟩ | ⟨a, t, s, code2, rv, _, hsh⟩
    · rw [hsh] at hmem; simp at hmem
    · rw [hsh] at hmem; simp at hmem
    · rw [hsh] at hmem
      simp at hmem
      rw [hsh, hmem.2]
  · intro art hart hse
    subst hse
    rcases generate_post_shape gwp parse none now1 topic sourceText with
      ⟨a, t, s, e, hsh⟩ | ⟨a, t, s, post, rv, e2, he2, hsh⟩ | ⟨a, t, s, post, rv, _, hsh⟩
    · rw [hsh] at hart; simp at hart
    · exact absurd he2 (by simp)
    · rw [hsh] at hart
      simp at hart
      subst hart
      refine ⟨by rw [hsh]; simp, ?_⟩
      rcases generate_post_shape gwp parse none now2 topic sourceText with
        ⟨a2, t2, s2, e2, hsh2⟩ | ⟨a2, t2, s2, post2, rv2, e3, he3, hsh2⟩ |
        ⟨a2, t2, s2, post2, rv2, _, hsh2⟩
      · have hind := generate_post_result_now gwp parse none topic sourceText now1 now2
        rw [hsh, hsh2] at hind
        simp at hind
      · exact absurd he3 (by simp)
      · have hind := generate_post_result_now gwp parse none topic sourceText now1 now2
        rw [hsh, hsh2] at hind
        simp at hind
        subst hind
        rw [hsh2]
        simp

theorem c3_idempotence_witness :
    Ev.write ScriptPost.outputFile (ScriptPost.fileContent (S "t") (S "n1") (S "text"))
      ∈ (ScriptPost.generate_post gwDetP parseEmpty none (S "n1") (S "t") []).1 :=
  ((c3_idempotence_amended gwOkB gwDetP parseEmpty none (S "d") (S "t") []
      (S "n1") (S "n2")).2.2 (S "text") (by decide) rfl).1

/-- Claim C7: a persistence failure is non-fatal: for both pipelines, the
run with a failing save returns exactly the same outcome (the already
produced Artifact, or the same fatal error) as the run whose save
succeeds — the Artifact is returned to the caller unchanged, not
discarded. -/
theorem c7_persist_failure_nonfatal (gw : ScriptBot.Gw) (gwp : ScriptPost.Gw)
    (parse : List Char → Except PyErr Dict) (e : PyErr)
    (description now topic sourceText : List Char) :
    (ScriptBot.generate_bot gw parse (some e) description).2
      = (ScriptBot.generate_bot gw parse none description).2
    ∧ (ScriptPost.generate_post gwp parse (some e) now topic sourceText).2
      = (ScriptPost.generate_post gwp parse none now topic sourceText).2 := by
  constructor
  · simp only [ScriptBot.generate_bot]
    cases hcc : ScriptBot.code_chain gw
        (ScriptBot.analysis_chain gw parse description)
        (ScriptBot.tools_selection_chain gw parse
          (ScriptBot.analysis_chain gw parse description) description)
        (ScriptBot.structure_chain gw parse
          (ScriptBot.analysis_chain gw parse description)
          (ScriptBot.tools_selection_chain gw parse
            (ScriptBot.analysis_chain gw parse description) description) description)
        description with
    | error e2 => rfl
    | ok code => rfl
  · simp only [ScriptPost.generate_post]
    cases hcc : ScriptPost.content_generation_chain gwp
        (ScriptPost.analysis_chain gwp parse topic sourceText)
        (ScriptPost.style_selection_chain gwp parse
          (ScriptPost.analysis_chain gwp parse topic sourceText) topic)
        (ScriptPost.structure_chain gwp parse
          (ScriptPost.analysis_chain gwp parse topic sourceText)
          (ScriptPost.style_selection_chain gwp parse
            (ScriptPost.analysis_chain gwp parse topic sourceText) topic) topic)
        topic sourceText with
    | error e2 => rfl
    | ok post => rfl

/-- Claim C8: in every run of either pipeline the Artifact is persisted at
most once (the write-event count of the run trace is at most one); any
write names the pipeline's fixed output location, happens only after the
review stage has completed (a review event is in the trace and the write is
the final event), and fully overwrites any prior content (for every initial
file system, the final contents at the output location are exactly the
written bytes, independent of what was there before). -/
theorem c8_persist_once_after_review (gw : ScriptBot.Gw) (gwp : ScriptPost.Gw)
    (parse : List Char → Except PyErr Dict) (saveErr : Option PyErr)
    (description now topic sourceText : List Char) :
    ((ScriptBot.generate_bot gw parse saveErr description).1.countP isWrite ≤ 1)
    ∧ (∀ f c, Ev.write f c ∈ (ScriptBot.generate_bot gw parse saveErr description).1 →
        f = ScriptBot.outputFile
        ∧ (ScriptBot.generate_bot gw parse saveErr description).2 = .ok c
        ∧ (∃ rv, Ev.review rv ∈ (ScriptBot.generate_bot gw parse saveErr description).1)
        ∧ (ScriptBot.generate_bot gw parse saveErr description).1.getLast?
            = some (.write f c)
        ∧ ∀ fs : FS, applyEvents fs
            (ScriptBot.generate_bot gw parse saveErr description).1 f = some c)
    ∧ ((ScriptPost.generate_post gwp parse saveErr now topic sourceText).1.countP isWrite ≤ 1)
    ∧ (∀ f c, Ev.write f c
          ∈ (ScriptPost.generate_post gwp parse saveErr now topic sourceText).1 →
        f = ScriptPost.outputFile
        ∧ (∃ rv, Ev.review rv
            ∈ (ScriptPost.generate_post gwp parse saveErr now topic sourceText).1)
        ∧ (ScriptPost.generate_post gwp parse saveErr now topic sourceText).1.getLast?
            = some (.write f c)
        ∧ ∀ fs : FS, applyEvents fs
            (ScriptPost.generate_post gwp parse saveErr now topic sourceText).1 f = some c) := by
  have hbot := generate_bot_shape gw parse saveErr description
  have hpost := generate_post_shape gwp parse saveErr now topic sourceText
  refine ⟨?_, ?_, ?_, ?_⟩
  · rcases hbot with ⟨a, t, s, e, hsh⟩ | ⟨a, t, s, c2, rv, e2, _, hsh⟩ |
      ⟨a, t, s, c2, rv, _, hsh⟩ <;>
      rw [hsh] <;> simp [isWrite, List.countP_cons]
  · intro f c hmem
    rcases hbot with ⟨a, t, s, e, hsh⟩ | ⟨a, t, s, c2, rv, e2, _, hsh⟩ |
      ⟨a, t, s, c2, rv, _, hsh⟩
    · rw [hsh] at hmem; simp at hmem
    · rw [hsh] at hmem; simp at hmem
    · rw [hsh] at hmem
      simp at hmem
      obtain ⟨hf, hc⟩ := hmem
      subst hf; subst hc
      refine ⟨rfl, by rw [hsh], ⟨rv, by rw [hsh]; simp⟩, ?_, ?_⟩
      · rw [hsh]
        simp [List.getLast?_cons_cons]
      · intro fs
        rw [hsh]
        simp [applyEvents, applyEv]
  · rcases hpost with ⟨a, t, s, e, hsh⟩ | ⟨a, t, s, p2, rv, e2, _, hsh⟩ |
      ⟨a, t, s, p2, rv, _, hsh⟩ <;>
      rw [hsh] <;> simp [isWrite, List.countP_cons]
  · intro f c hmem
    rcases hpost with ⟨a, t, s, e, hsh⟩ | ⟨a, t, s, p2, rv, e2, _, hsh⟩ |
      ⟨a, t, s, p2, rv, _, hsh⟩
    · rw [hsh] at hmem; simp at hmem
    · rw [hsh] at hmem; simp at hmem
    · rw [hsh] at hmem
      simp at hmem
      obtain ⟨hf, hc⟩ := hmem
      subst hf; subst hc
      refine ⟨rfl, ⟨rv, by rw [hsh]; simp⟩, ?_, ?_⟩
      · rw [hsh]
        simp [List.getLast?_cons_cons]
      · intro fs
        rw [hsh]
        simp [applyEvents, applyEv]

theorem c8_persist_once_after_review_witness :
    ((ScriptBot.generate_bot gwOkB parseEmpty none (S "d")).1.countP isWrite ≤ 1)
    ∧ applyEvents (fun _ => none) (ScriptBot.generate_bot gwOkB parseEmpty none (S "d")).1
        ScriptBot.outputFile = some (S "print(1)") := by
  have h := c8_persist_once_after_review gwOkB gwDetP parseEmpty none
    (S "d") (S "n") (S "t") (S "s")
  refine ⟨h.1, ?_⟩
  exact (h.2.1 ScriptBot.outputFile (S "print(1)") (by decide)).2.2.2.2 (fun _ => none)

/-- Claim C9: the bytes persisted by the post pipeline are a header block —
the origin-topic line, the generation-timestamp line, a rule and a blank
line — followed by the artifact body; the bytes persisted by the bot
pipeline are exactly the unwrapped artifact text, with no header. -/
theorem c9_file_layout (gw : ScriptBot.Gw) (gwp : ScriptPost.Gw)
    (parse : List Char → Except PyErr Dict) (saveErr : Option PyErr)
    (description now topic sourceText : List Char) :
    (∀ f c, Ev.write f c ∈ (ScriptBot.generate_bot gw parse saveErr description).1 →
        f = ScriptBot.outputFile
        ∧ (ScriptBot.generate_bot gw parse saveErr description).2 = .ok c)
    ∧ (∀ f c, Ev.write f c
          ∈ (ScriptPost.generate_post gwp parse saveErr now topic sourceText).1 →
        f = ScriptPost.outputFile
        ∧ ∃ art, (ScriptPost.generate_post gwp parse saveErr now topic sourceText).2
            = .ok art
          ∧ c = S "# ТЕМА: " ++ topic ++ S "\n"
              ++ S "# Дата генерации: " ++ now ++ S "\n"
              ++ List.replicate 80 '=' ++ S "\n\n"
              ++ art) := by
  constructor
  · intro f c hmem
    rcases generate_bot_shape gw parse saveErr description with
      ⟨a, t, s, e, hsh⟩ | ⟨a, t, s, c2, rv, e2, _, hsh⟩ | ⟨a, t, s, c2, rv, _, hsh⟩
    · rw [hsh] at hmem; simp at hmem
    · rw [hsh] at hmem; simp at hmem
    · rw [hsh] at hmem
      simp at hmem
      obtain ⟨hf, hc⟩ := hmem
      subst hf; subst hc
      exact ⟨rfl, by rw [hsh]⟩
  · intro f c hmem
    rcases generate_post_shape gwp parse saveErr now topic sourceText with
      ⟨a, t, s, e, hsh⟩ | ⟨a, t, s, p2, rv, e2, _, hsh⟩ | ⟨a, t, s, p2, rv, _, hsh⟩
    · rw [hsh] at hmem; simp at hmem
    · rw [hsh] at hmem; simp at hmem
    · rw [hsh] at hmem
      simp at hmem
      obtain ⟨hf, hc⟩ := hmem
      subst hf; subst hc
      exact ⟨rfl, p2, by rw [hsh], rfl⟩

theorem c9_file_layout_witness :
    (ScriptPost.generate_post gwDetP parseEmpty none (S "n") (S "t") (S "s")).2
        = .ok (S "text")
    ∧ ScriptPost.fileContent (S "t") (S "n") (S "text")
        = S "# ТЕМА: " ++ S "t" ++ S "\n"
            ++ S "# Дата генерации: " ++ S "n" ++ S "\n"
            ++ List.replicate 80 '=' ++ S "\n\n"
            ++ S "text" := by
  have h := (c9_file_layout gwOkB gwDetP parseEmpty none (S "d") (S "n") (S "t") (S "s")).2
    ScriptPost.outputFile (ScriptPost.fileContent (S "t") (S "n") (S "text")) (by decide)
  obtain ⟨_, art, hart, hc⟩ := h
  have hargs : art = S "text" := by
    have hrun : (ScriptPost.generate_post gwDetP parseEmpty none
        (S "n") (S "t") (S "s")).2 = Except.ok (S "text") := by decide
    rw [hart] at hrun
    injection hrun
  subst hargs
  exact ⟨hart, hc⟩
